import Mathlib

/-!
Shallow embedding of the qtconnectivity excerpts and proofs about them:

* `Winrt` — qbluetoothdevicediscoveryagent_winrt.cpp: the `quint128` byte
  swap, the advertisement extraction helpers, the LE-advertisement callback
  of `QWinRTBluetoothDeviceDiscoveryWorker`, the asynchronous callback
  lambdas registered via `put_Completed` / `add_Received`, and the
  `QBluetoothDeviceDiscoveryAgentPrivate` slots (`start`, `registerDevice`,
  `updateDeviceData`).
* `AndroidJni` — android/jni_android.cpp: `registerNatives` and `JNI_OnLoad`.
* `BluezCodegen` — the shell script generating the BlueZ D-Bus proxy stubs.

COM calls are modelled as values of `Option α`: `none` stands for a call
whose returned `HRESULT` satisfies `FAILED(hr)`, `some v` for a successful
call producing `v`.  Byte arrays are `List Nat`, 128-bit UUIDs are `Nat`.
-/

namespace Winrt

/-- HRESULT return values of COM callbacks; `S_OK = 0`. -/
abbrev Hresult := Int

def S_OK : Hresult := 0

/-- The 16-byte `quint128` struct from qbluetoothuuid.h (`quint8 data[16]`);
each byte is modelled as a `Nat`. -/
structure Quint128 where
  data : Fin 16 → Nat

/-- `qbswap` for `quint128` (qbluetoothdevicediscoveryagent_winrt.cpp, lines
62–68): `dst.data[i] = src.data[15 - i]` for `i = 0..15`. -/
def qbswap (src : Quint128) : Quint128 :=
  ⟨fun i => src.data ⟨15 - i.val, by omega⟩⟩

/-- `QBluetoothDeviceDiscoveryAgent::Error` values. -/
inductive AgentError where
  | noError
  | inputOutputError
  | poweredOffError
  | invalidBluetoothAdapterError
  | unsupportedPlatformError
  | unsupportedDiscoveryMethod
  | locationServiceTurnedOffError
  | missingPermissionsError
  | unknownError
deriving DecidableEq

/-- `QBluetoothDeviceDiscoveryAgent::DiscoveryMethod` bit for classic
discovery (`ClassicMethod = 0x1`). -/
def ClassicMethod : Nat := 1

/-- `QBluetoothDeviceDiscoveryAgent::DiscoveryMethod` bit for low-energy
discovery (`LowEnergyMethod = 0x2`). -/
def LowEnergyMethod : Nat := 2

/-- `QBluetoothDeviceDiscoveryAgent::supportedDiscoveryMethods()` on the
WinRT backend (lines 948–951): `return (ClassicMethod | LowEnergyMethod);`. -/
def supportedDiscoveryMethods : Nat := ClassicMethod ||| LowEnergyMethod

/-- `QBluetoothDeviceInfo::Field` bits: `None = 0x0000`, `RSSI = 0x0001`,
`ManufacturerData = 0x0002`, `ServiceData = 0x0004`. -/
def fieldNone : Nat := 0

def fieldRSSI : Nat := 1

def fieldManufacturerData : Nat := 2

def fieldServiceData : Nat := 4

/-- Modelled from the spec: `QFlags::testFlag` of the framework ("the
framework's own signal/slot vocabulary" is outside the supplied sources).
`testFlag(f)` is `(flags & f) == f`, except that testing the zero flag
(`Field::None`) asks whether the whole flag set is empty. -/
def testFlag (flags flag : Nat) : Bool :=
  if flag = 0 then flags = 0 else flags &&& flag = flag

/-- `ManufacturerData` / `ServiceData` of
qbluetoothdevicediscoveryagent_p.h, modelled as association lists of
key / byte-array pairs (the keys of service data are 128-bit UUIDs
encoded as `Nat`). -/
abbrev MultiMap := List (Nat × List Nat)

/-- A single `insert(key, value)` on a `ManufacturerData` / `ServiceData`
multi-hash: the pair is added to the collection. -/
def multiHashInsert (m : MultiMap) (k : Nat) (v : List Nat) : MultiMap :=
  m ++ [(k, v)]

/-- Modelled from the spec: merging one multi-hash into another
(`m_foundLEDevicesMap[address].manufacturerData.insert(manufacturerData)`,
declared outside the supplied sources) — every pair of `src` not already
present in `dst` is added. -/
def multiHashUnite (dst src : MultiMap) : MultiMap :=
  src.foldl (fun acc p => if p ∈ acc then acc else acc ++ [p]) dst

/-- Modelled from the spec: `value(key)` of a multi-hash — the most
recently inserted value stored under `key` (default-constructed, i.e.
empty, when the key is absent). -/
def multiHashValue (m : MultiMap) (k : Nat) : List Nat :=
  (((m.reverse).find? (fun p => p.1 = k)).map (fun p => p.2)).getD []

/-- Modelled from the spec: `QBluetoothDeviceInfo::setManufacturerData` /
`setServiceData` (declared outside the supplied sources) — one
(key, value) pair is added to the stored multi-map unless already present. -/
def multiMapSetItem (m : MultiMap) (k : Nat) (v : List Nat) : MultiMap :=
  if (k, v) ∈ m then m else m ++ [(k, v)]

/-- The loops `for (quint16 key : manufacturerData.keys())
iter->setManufacturerData(key, manufacturerData.value(key));` (and the
analogous service-data loop) of
`QBluetoothDeviceDiscoveryAgentPrivate::updateDeviceData`. -/
def multiMapSetAll (dst src : MultiMap) : MultiMap :=
  (src.map (fun p => p.1)).foldl (fun acc k => multiMapSetItem acc k (multiHashValue src k)) dst

/-- Modelled from the spec: the `QBluetoothDeviceInfo` attributes the
supplied sources read or write.  Core configuration values:
`Unknown = 0`, `LowEnergy = 1`, `BaseRate = 2`, `BaseRateAndLowEnergy = 3`. -/
structure DeviceInfo where
  address : Nat
  name : String
  classOfDevice : Nat
  coreConfigurations : Nat
  serviceUuids : List Nat
  rssi : Int
  manufacturerData : MultiMap
  serviceData : MultiMap
  cached : Bool
deriving DecidableEq

/-- Signals emitted by `QBluetoothDeviceDiscoveryAgent` together with the
non-signal side effects of `QBluetoothDeviceDiscoveryAgentPrivate::start`
(worker creation / LE scan timer start), recorded as events. -/
inductive AgentEvent where
  | deviceDiscovered (info : DeviceInfo)
  | deviceUpdated (info : DeviceInfo) (fields : Nat)
  | errorOccurred (e : AgentError)
  | canceled
  | finished
  | workerStarted (methods : Nat)
  | leScanTimerStarted (interval : Int)
deriving DecidableEq

/-- The body of the service-UUID merge in
`QBluetoothDeviceDiscoveryAgentPrivate::registerDevice` (lines 1015–1025):
append the incoming UUIDs, form the set, rewrite the list only when the
set's size differs from the stored list's size, and force the core
configuration to `BaseRateAndLowEnergyCoreConfiguration` (3) when the two
configurations differ. -/
def mergeDevice (iter info : DeviceInfo) : DeviceInfo :=
  let uuids := iter.serviceUuids ++ info.serviceUuids
  let uuidSet := uuids.dedup
  let iter1 :=
    if iter.serviceUuids.length ≠ uuidSet.length then
      { iter with serviceUuids := uuidSet }
    else iter
  if iter1.coreConfigurations ≠ info.coreConfigurations then
    { iter1 with coreConfigurations := 3 }
  else iter1

/-- `QBluetoothDeviceDiscoveryAgentPrivate::registerDevice` (lines
1009–1031): scan `discoveredDevices` for an entry with the same address;
merge into the first such entry (emitting nothing), otherwise append the
new info and emit `deviceDiscovered`. -/
def registerDevice (devs : List DeviceInfo) (info : DeviceInfo) :
    List DeviceInfo × List AgentEvent :=
  match devs with
  | [] => ([info], [.deviceDiscovered info])
  | d :: rest =>
    if d.address = info.address then
      (mergeDevice d info :: rest, [])
    else
      let r := registerDevice rest info
      (d :: r.1, r.2)

/-- A sequence of `registerDevice` invocations starting from the empty
`discoveredDevices` list, accumulating the emitted signals. -/
def registerAll (calls : List DeviceInfo) : List DeviceInfo × List AgentEvent :=
  calls.foldl (fun acc info =>
    let r := registerDevice acc.1 info
    (r.1, acc.2 ++ r.2)) ([], [])

/-- The body of the matching branch of
`QBluetoothDeviceDiscoveryAgentPrivate::updateDeviceData`'s loop (lines
1047–1054): sequentially apply the attribute updates flagged in
`fields`. -/
def updateEntry (fields : Nat) (rssi : Int)
    (manufacturerData serviceData : MultiMap) (d : DeviceInfo) : DeviceInfo :=
  let d1 := if testFlag fields fieldRSSI then { d with rssi := rssi } else d
  let d2 :=
    if testFlag fields fieldManufacturerData then
      { d1 with manufacturerData := multiMapSetAll d1.manufacturerData manufacturerData }
    else d1
  if testFlag fields fieldServiceData then
    { d2 with serviceData := multiMapSetAll d2.serviceData serviceData }
  else d2

/-- The search-and-update loop of
`QBluetoothDeviceDiscoveryAgentPrivate::updateDeviceData` (lines
1043–1058): on the first entry with the given address, update the
attributes flagged in `fields`, emit `deviceUpdated` once and stop. -/
def updateDeviceDataGo (address : Nat) (fields : Nat) (rssi : Int)
    (manufacturerData serviceData : MultiMap) :
    List DeviceInfo → List DeviceInfo × List AgentEvent
  | [] => ([], [])
  | d :: rest =>
    if d.address = address then
      (updateEntry fields rssi manufacturerData serviceData d :: rest,
        [.deviceUpdated (updateEntry fields rssi manufacturerData serviceData d) fields])
    else
      let r := updateDeviceDataGo address fields rssi manufacturerData serviceData rest
      (d :: r.1, r.2)

/-- `QBluetoothDeviceDiscoveryAgentPrivate::updateDeviceData` (lines
1033–1059): return immediately when `fields.testFlag(Field::None)`,
otherwise run the search-and-update loop. -/
def updateDeviceData (devs : List DeviceInfo) (address : Nat) (fields : Nat)
    (rssi : Int) (manufacturerData serviceData : MultiMap) :
    List DeviceInfo × List AgentEvent :=
  if testFlag fields fieldNone then (devs, [])
  else updateDeviceDataGo address fields rssi manufacturerData serviceData devs

/-- `QBluetoothLocalDevice::HostMode` (only the powered-off value matters
to the embedded code). -/
inductive HostMode where
  | poweredOff
  | connectable
  | discoverable
deriving DecidableEq

/-- Modelled from the spec: the `QBluetoothLocalDevice` adapter object
(outside the supplied sources) as observed by `start` — its validity and
host mode. -/
structure LocalDevice where
  isValid : Bool
  hostMode : HostMode
deriving DecidableEq

/-- The `QBluetoothDeviceDiscoveryAgentPrivate` state touched by `start`:
`lastError`, `errorString`, `discoveredDevices` and the worker pointer
(recorded as the discovery methods the worker was created with). -/
structure AgentPrivate where
  lastError : AgentError
  errorString : String
  discoveredDevices : List DeviceInfo
  worker : Option Nat
deriving DecidableEq

/-- `QBluetoothDeviceDiscoveryAgentPrivate::start` (lines 953–995):
invalid adapter and powered-off adapter set `lastError`/`errorString`,
emit `errorOccurred` and return without touching anything else; an
existing worker makes the call a no-op; otherwise the worker is created,
`discoveredDevices` is cleared and, when a positive LE timeout and the
LE method are requested, the scan timer is started. -/
def start (adapter : LocalDevice) (lowEnergySearchTimeout : Int)
    (st : AgentPrivate) (methods : Nat) : AgentPrivate × List AgentEvent :=
  if adapter.isValid = false then
    ({ st with
        lastError := .invalidBluetoothAdapterError
        errorString := "Cannot find valid Bluetooth adapter." },
      [.errorOccurred .invalidBluetoothAdapterError])
  else if adapter.hostMode = .poweredOff then
    ({ st with
        lastError := .poweredOffError
        errorString := "Bluetooth adapter powered off." },
      [.errorOccurred .poweredOffError])
  else if st.worker.isSome then (st, [])
  else
    let st1 := { st with worker := some methods, discoveredDevices := [] }
    if lowEnergySearchTimeout > 0 ∧ methods &&& LowEnergyMethod ≠ 0 then
      (st1, [.workerStarted methods, .leScanTimerStarted lowEnergySearchTimeout])
    else
      (st1, [.workerStarted methods])

/-- One entry of the platform's `IVector<BluetoothLEManufacturerData*>`:
the `get_CompanyId` and `get_Data` calls on it. -/
structure BLEManufacturerDataItem where
  companyId : Option Nat
  data : Option (List Nat)

/-- The platform's manufacturer-data vector: its `get_Size` call and the
per-index `GetAt` results. -/
structure BLEManufacturerDataVector where
  size : Option Nat
  items : List (Option BLEManufacturerDataItem)

/-- One `IBluetoothLEAdvertisementDataSection`: its `get_DataType` and
`get_Data` calls. -/
structure BLEAdvertisementDataSection where
  dataType : Option Nat
  data : Option (List Nat)

/-- The `IVectorView<BluetoothLEAdvertisementDataSection*>` returned by
`GetSectionsByType`. -/
structure SectionVectorView where
  size : Option Nat
  items : List (Option BLEAdvertisementDataSection)

/-- The `IVector<GUID>` returned by `get_ServiceUuids`; GUIDs are 128-bit
numbers. -/
structure GuidVector where
  size : Option Nat
  items : List (Option Nat)

/-- The platform's `IBluetoothLEAdvertisement` object, exposing exactly
the calls the embedded code performs on it. -/
structure IBluetoothLEAdvertisement where
  manufacturerData : Option BLEManufacturerDataVector
  sectionsByType : Nat → Option SectionVectorView
  serviceUuids : Option GuidVector

/-- The Bluetooth base UUID 00000000-0000-1000-8000-00805F9B34FB as a
128-bit big-endian number. -/
def bluetoothBaseUuid : Nat := 0x1000800000805F9B34FB

/-- `QBluetoothUuid(quint16 v)`: the base UUID with `v` in the top 32-bit
field (v * 2^96 fills bytes 2–3 of the UUID). -/
def uuidFromUuid16 (v : Nat) : Nat := v * 2 ^ 96 + bluetoothBaseUuid

/-- `QBluetoothUuid(quint32 v)`: the base UUID with `v` as the full
top 32-bit field. -/
def uuidFromUuid32 (v : Nat) : Nat := v * 2 ^ 96 + bluetoothBaseUuid

/-- `QBluetoothUuid(quint128 q)`: the sixteen bytes of `q` in order are
the big-endian bytes of the UUID. -/
def uuidFromQuint128 (q : Quint128) : Nat :=
  (List.finRange 16).foldl (fun acc i => acc * 256 + q.data i) 0

/-- `qFromLittleEndian<quint16>(p)`: the first two bytes read
little-endian (reads past the modelled buffer yield 0). -/
def leUInt16 (b : List Nat) : Nat := b.getD 0 0 + b.getD 1 0 * 256

/-- `qFromLittleEndian<quint32>(p)`: the first four bytes read
little-endian. -/
def leUInt32 (b : List Nat) : Nat :=
  b.getD 0 0 + b.getD 1 0 * 256 + b.getD 2 0 * 65536 + b.getD 3 0 * 16777216

/-- Loading a `quint128` from a byte buffer (`qFromLittleEndian<quint128>`
on the little-endian WinRT targets is a plain 16-byte load). -/
def quint128OfBytes (b : List Nat) : Quint128 :=
  ⟨fun i => b.getD i.val 0⟩

/-- The loop of `extractManufacturerData` (lines 79–93): index `i` counts
up, `n` items remain; `GetAt` / `get_CompanyId` / `get_Data` failures hit
`WARN_AND_CONTINUE_IF_FAILED` and skip the item. -/
def mdLoop (vec : BLEManufacturerDataVector) : Nat → Nat → MultiMap → MultiMap
  | _, 0, ret => ret
  | i, n + 1, ret =>
    match vec.items.getD i none with
    | none => mdLoop vec (i + 1) n ret
    | some d =>
      match d.companyId with
      | none => mdLoop vec (i + 1) n ret
      | some id =>
        match d.data with
        | none => mdLoop vec (i + 1) n ret
        | some bytes => mdLoop vec (i + 1) n (multiHashInsert ret id bytes)

/-- `extractManufacturerData` (lines 70–95): `get_ManufacturerData` and
`get_Size` failures return the (empty) result so far. -/
def extractManufacturerData (ad : IBluetoothLEAdvertisement) : MultiMap :=
  match ad.manufacturerData with
  | none => []
  | some vec =>
    match vec.size with
    | none => []
    | some size => mdLoop vec 0 size []

/-- The insertion performed for one advertisement data section (lines
128–138).  Note on `bufferData + 2` (and `+ 4`, `+ 16`): `bufferData` is a
`QByteArray`, and the only viable overload for `QByteArray + int` in Qt 6
is `operator+(const QByteArray &, char)` (the module is built without the
deprecated `QByteArray` → `const char *` conversion, which would otherwise
make the expression ambiguous), so the `int` is converted to `char` and the
expression APPENDS one byte of that value to the buffer — it does not strip
the UUID prefix.  The embedding reproduces this: the inserted value is the
section buffer with the byte 2 / 4 / 16 appended. -/
def sdSectionInsert (ret : MultiMap) (dt : Nat) (bytes : List Nat) : MultiMap :=
  if dt = 22 then
    multiHashInsert ret (uuidFromUuid16 (leUInt16 bytes)) (bytes ++ [2])
  else if dt = 32 then
    multiHashInsert ret (uuidFromUuid32 (leUInt32 bytes)) (bytes ++ [4])
  else if dt = 33 then
    multiHashInsert ret (uuidFromQuint128 (qbswap (quint128OfBytes bytes))) (bytes ++ [16])
  else ret

/-- The inner loop of `extractServiceData` (lines 114–139): `GetAt`,
`get_DataType` and `get_Data` failures skip the section
(`WARN_AND_CONTINUE_IF_FAILED`). -/
def sdLoop (vec : SectionVectorView) : Nat → Nat → MultiMap → MultiMap
  | _, 0, ret => ret
  | i, n + 1, ret =>
    match vec.items.getD i none with
    | none => sdLoop vec (i + 1) n ret
    | some d =>
      match d.dataType with
      | none => sdLoop vec (i + 1) n ret
      | some dt =>
        match d.data with
        | none => sdLoop vec (i + 1) n ret
        | some bytes => sdLoop vec (i + 1) n (sdSectionInsert ret dt bytes)

/-- The data-section type codes queried by `extractServiceData`
(`{ 0x16, 0x20, 0x21 }` = `[22, 32, 33]`). -/
def sdTypes : List Nat := [22, 32, 33]

/-- The outer loop of `extractServiceData` over the three section types;
`GetSectionsByType` / `get_Size` failures return the result accumulated so
far (`WARN_AND_RETURN_IF_FAILED(..., return ret)`). -/
def sdGoTypes (ad : IBluetoothLEAdvertisement) : List Nat → MultiMap → MultiMap
  | [], ret => ret
  | t :: ts, ret =>
    match ad.sectionsByType t with
    | none => ret
    | some vec =>
      match vec.size with
      | none => ret
      | some size => sdGoTypes ad ts (sdLoop vec 0 size ret)

/-- `extractServiceData` (lines 97–143). -/
def extractServiceData (ad : IBluetoothLEAdvertisement) : MultiMap :=
  sdGoTypes ad sdTypes []

/-- The buffers the platform hands over in the advertisement data sections
of the three service-data types — the raw payloads available to
`extractServiceData` without any byte-level interpretation. -/
def platformSectionBuffers (ad : IBluetoothLEAdvertisement) : List (List Nat) :=
  sdTypes.foldl (fun acc t =>
    match ad.sectionsByType t with
    | none => acc
    | some v =>
      acc ++ v.items.foldl (fun a it =>
        match it with
        | some s =>
          match s.data with
          | some b => a ++ [b]
          | none => a
        | none => a) []) []

/-- Formalisation of the claim that the reported service data comes from
the platform API without byte-level interpretation: every reported value
would have to be one of the platform-provided section buffers. -/
def serviceDataSuppliedByPlatform (ad : IBluetoothLEAdvertisement) : Prop :=
  ∀ p ∈ extractServiceData ad, p.2 ∈ platformSectionBuffers ad

instance (ad : IBluetoothLEAdvertisement) : Decidable (serviceDataSuppliedByPlatform ad) :=
  List.decidableBAll _ _

/-- `LEAdvertisingInfo` of the worker (lines 201–206). -/
structure LEAdvertisingInfo where
  services : List Nat
  manufacturerData : MultiMap
  serviceData : MultiMap
  rssi : Int
deriving DecidableEq

/-- The worker state the LE-advertisement callback touches:
`m_foundLEDevicesMap`, a map from 64-bit addresses to advertising info. -/
structure WorkerState where
  foundLEDevicesMap : List (Nat × LEAdvertisingInfo)
deriving DecidableEq

def mapContains (m : List (Nat × LEAdvertisingInfo)) (k : Nat) : Bool :=
  m.any (fun p => p.1 = k)

/-- `QMap::value` with a default-constructed `LEAdvertisingInfo`. -/
def mapValue (m : List (Nat × LEAdvertisingInfo)) (k : Nat) : LEAdvertisingInfo :=
  ((m.find? (fun p => p.1 = k)).map (fun p => p.2)).getD ⟨[], [], [], 0⟩

def mapUpdate (m : List (Nat × LEAdvertisingInfo)) (k : Nat)
    (f : LEAdvertisingInfo → LEAdvertisingInfo) : List (Nat × LEAdvertisingInfo) :=
  m.map (fun p => if p.1 = k then (p.1, f p.2) else p)

def mapInsert (m : List (Nat × LEAdvertisingInfo)) (k : Nat)
    (v : LEAdvertisingInfo) : List (Nat × LEAdvertisingInfo) :=
  m ++ [(k, v)]

/-- The service-merging loop of the callback (lines 413–419): append each
incoming UUID not yet present; the flag records whether anything was
appended. -/
def mergeServices (found newUuids : List Nat) : List Nat × Bool :=
  newUuids.foldl (fun acc u => if u ∈ acc.1 then acc else (acc.1 ++ [u], true))
    (found, false)

/-- Signals of `QWinRTBluetoothDeviceDiscoveryWorker` (the class spells the
error signal `errorOccured`). -/
inductive WorkerSignal where
  | deviceFound (info : DeviceInfo)
  | deviceDataChanged (address : Nat) (fields : Nat) (rssi : Int)
      (manufacturerData : MultiMap) (serviceData : MultiMap)
  | errorOccured (e : AgentError)
  | scanFinished
deriving DecidableEq

/-- The `IBluetoothLEAdvertisementReceivedEventArgs` calls performed by
the callback. -/
structure AdvArgs where
  bluetoothAddress : Option Nat
  rawSignalStrength : Option Int
  advertisement : Option IBluetoothLEAdvertisement

/-- Result of the LE-advertisement callback: the new worker state, the
signals emitted, the addresses passed to `leBluetoothInfoFromAddressAsync`
(the asynchronous follow-up request), and the returned `HRESULT`. -/
structure AdvResult where
  state : WorkerState
  signals : List WorkerSignal
  asyncRequests : List Nat
  hr : Hresult

/-- The GUID-collecting loop of the callback (lines 383–391): a failing
`GetAt` aborts the whole callback, a successful run collects the UUIDs in
order. -/
def collectGuids (v : GuidVector) : Nat → Nat → Option (List Nat)
  | _, 0 => some []
  | i, n + 1 =>
    match v.items.getD i none with
    | none => none
    | some g => (collectGuids v (i + 1) n).map (fun l => g :: l)

/-- The mutex-protected merge section of the callback (lines 393–441),
including the decision to emit `deviceDataChanged` or to issue the
asynchronous device lookup. -/
def mergeAdvertisement (st : WorkerState) (address : Nat) (rssi : Int)
    (manufacturerData serviceData : MultiMap) (serviceUuids : List Nat) :
    WorkerState × List WorkerSignal × List Nat :=
  if mapContains st.foundLEDevicesMap address then
    let adInfo := mapValue st.foundLEDevicesMap address
    let m1 :=
      if adInfo.rssi ≠ rssi then
        mapUpdate st.foundLEDevicesMap address (fun li => { li with rssi := rssi })
      else st.foundLEDevicesMap
    let cf1 := if adInfo.rssi ≠ rssi then fieldRSSI else fieldNone
    let mdMerged := multiHashUnite adInfo.manufacturerData manufacturerData
    let m2 :=
      if adInfo.manufacturerData ≠ manufacturerData then
        mapUpdate m1 address (fun li => { li with manufacturerData := mdMerged })
      else m1
    let cf2 :=
      if adInfo.manufacturerData ≠ manufacturerData ∧ adInfo.manufacturerData ≠ mdMerged then
        cf1 ||| fieldManufacturerData
      else cf1
    let sdMerged := multiHashUnite adInfo.serviceData serviceData
    let m3 :=
      if adInfo.serviceData ≠ serviceData then
        mapUpdate m2 address (fun li => { li with serviceData := sdMerged })
      else m2
    let cf3 :=
      if adInfo.serviceData ≠ serviceData ∧ adInfo.serviceData ≠ sdMerged then
        cf2 ||| fieldServiceData
      else cf2
    let ms := mergeServices adInfo.services serviceUuids
    if ms.2 = false then
      if testFlag cf3 fieldNone = false then
        (⟨m3⟩, [.deviceDataChanged address cf3 rssi manufacturerData serviceData], [])
      else (⟨m3⟩, [], [])
    else
      (⟨mapUpdate m3 address (fun li => { li with services := ms.1 })⟩, [], [address])
  else
    (⟨mapInsert st.foundLEDevicesMap address ⟨serviceUuids, manufacturerData, serviceData, rssi⟩⟩,
      [], [address])

/-- `QWinRTBluetoothDeviceDiscoveryWorker::onBluetoothLEAdvertisementReceived`
(lines 351–443).  Every platform call guarded by
`EMIT_WORKER_ERROR_AND_RETURN_IF_FAILED` that fails emits
`errorOccured(UnknownError)` and makes the callback return `S_OK`; the
successful path runs the merge section and returns `S_OK` as well. -/
def onBluetoothLEAdvertisementReceived (st : WorkerState) (args : AdvArgs) : AdvResult :=
  match args.bluetoothAddress with
  | none => ⟨st, [.errorOccured .unknownError], [], S_OK⟩
  | some address =>
    match args.rawSignalStrength with
    | none => ⟨st, [.errorOccured .unknownError], [], S_OK⟩
    | some rssi =>
      match args.advertisement with
      | none => ⟨st, [.errorOccured .unknownError], [], S_OK⟩
      | some ad =>
        let manufacturerData := extractManufacturerData ad
        let serviceData := extractServiceData ad
        match ad.serviceUuids with
        | none => ⟨st, [.errorOccured .unknownError], [], S_OK⟩
        | some guids =>
          match guids.size with
          | none => ⟨st, [.errorOccured .unknownError], [], S_OK⟩
          | some size =>
            match collectGuids guids 0 size with
            | none => ⟨st, [.errorOccured .unknownError], [], S_OK⟩
            | some serviceUuids =>
              let m := mergeAdvertisement st address rssi manufacturerData serviceData serviceUuids
              ⟨m.1, m.2.1, m.2.2, S_OK⟩

/-- Whether some platform call guarded by
`EMIT_WORKER_ERROR_AND_RETURN_IF_FAILED` inside the LE-advertisement
callback fails for the given event arguments. -/
def advGuardedCallFailed (args : AdvArgs) : Bool :=
  match args.bluetoothAddress with
  | none => true
  | some _ =>
    match args.rawSignalStrength with
    | none => true
    | some _ =>
      match args.advertisement with
      | none => true
      | some ad =>
        match ad.serviceUuids with
        | none => true
        | some guids =>
          match guids.size with
          | none => true
          | some size => (List.range size).any (fun i => (guids.items.getD i none).isNone)

/-- `AsyncStatus` of WinRT asynchronous operations. -/
inductive AsyncStatus where
  | started
  | completed
  | canceled
  | errored
deriving DecidableEq

/-- The worker member functions the registered callback lambdas may invoke
(recorded, not expanded, except for the advertisement callback which is
modelled in full above). -/
inductive WorkerAction where
  | onDeviceDiscoveryFinished (mode : Nat)
  | onBluetoothLEAdvertisementReceived
  | onPairedClassicBluetoothDeviceFoundAsync (status : AsyncStatus)
  | decrementPairedDevicesAndCheckFinished
  | onPairedBluetoothLEDeviceFoundAsync (status : AsyncStatus)
  | decrementPendingPairedDevices
  | onBluetoothLEDeviceFoundAsync (status : AsyncStatus)
  | onRfcommServicesReceived (status : AsyncStatus) (address : Nat)
      (classOfDevice : Nat) (btName : String)
  | onLeServicesReceived (status : AsyncStatus)
deriving DecidableEq

/-- The `put_Completed` lambda of `startDeviceDiscovery` (lines 285–290):
`if (status == Completed && thisPointer) thisPointer->onDeviceDiscoveryFinished(op, mode);
return S_OK;`. -/
def deviceDiscoveryCompletedHandler (thisPointer : Option WorkerState) (mode : Nat)
    (status : AsyncStatus) : List WorkerAction × Hresult :=
  if status = .completed ∧ thisPointer.isSome then
    ([.onDeviceDiscoveryFinished mode], S_OK)
  else ([], S_OK)

/-- The `add_Received` lambda of `setupLEDeviceWatcher` (lines 456–463):
a live worker handles the advertisement (returning that call's HRESULT),
a dead one returns `S_OK`. -/
def advertisementReceivedHandler (thisPointer : Option WorkerState) (args : AdvArgs) :
    List WorkerAction × Hresult :=
  match thisPointer with
  | some st =>
    ([.onBluetoothLEAdvertisementReceived], (onBluetoothLEAdvertisementReceived st args).hr)
  | none => ([], S_OK)

/-- The `put_Completed` lambda of `classicBluetoothInfoFromDeviceIdAsync`
(lines 493–503). -/
def classicDeviceFromIdCompletedHandler (thisPointer : Option WorkerState)
    (status : AsyncStatus) : List WorkerAction × Hresult :=
  match thisPointer with
  | some _ =>
    if status = .completed then
      ([.onPairedClassicBluetoothDeviceFoundAsync status], S_OK)
    else ([.decrementPairedDevicesAndCheckFinished], S_OK)
  | none => ([], S_OK)

/-- The `put_Completed` lambda of `leBluetoothInfoFromDeviceIdAsync`
(lines 529–539). -/
def leDeviceFromIdCompletedHandler (thisPointer : Option WorkerState)
    (status : AsyncStatus) : List WorkerAction × Hresult :=
  match thisPointer with
  | some _ =>
    if status = .completed then
      ([.onPairedBluetoothLEDeviceFoundAsync status], S_OK)
    else ([.decrementPendingPairedDevices], S_OK)
  | none => ([], S_OK)

/-- The `put_Completed` lambda of `leBluetoothInfoFromAddressAsync`
(lines 561–567): `if (status == Completed && thisPointer) ...`. -/
def leDeviceFromAddressCompletedHandler (thisPointer : Option WorkerState)
    (status : AsyncStatus) : List WorkerAction × Hresult :=
  if status = .completed ∧ thisPointer.isSome then
    ([.onBluetoothLEDeviceFoundAsync status], S_OK)
  else ([], S_OK)

/-- The `put_Completed` lambda registered on `GetRfcommServicesAsync`
(lines 635–645). -/
def rfcommServicesCompletedHandler (thisPointer : Option WorkerState)
    (status : AsyncStatus) (address classOfDeviceInt : Nat) (btName : String) :
    List WorkerAction × Hresult :=
  match thisPointer with
  | some _ => ([.onRfcommServicesReceived status address classOfDeviceInt btName], S_OK)
  | none => ([], S_OK)

/-- The `put_Completed` lambda registered on `GetGattServicesAsync`
(lines 856–864). -/
def leServicesCompletedHandler (thisPointer : Option WorkerState)
    (status : AsyncStatus) : List WorkerAction × Hresult :=
  match thisPointer with
  | some _ => ([.onLeServicesReceived status], S_OK)
  | none => ([], S_OK)

/-- Platform response delivering exactly the given manufacturer-data
pairs. -/
def mkManufacturerAd (pairs : MultiMap) : IBluetoothLEAdvertisement where
  manufacturerData := some ⟨some pairs.length, pairs.map (fun p => some ⟨some p.1, some p.2⟩)⟩
  sectionsByType := fun _ => some ⟨some 0, []⟩
  serviceUuids := some ⟨some 0, []⟩

/-- Platform response delivering a single advertisement data section of
type `dt` with payload `bytes` (and no manufacturer data or UUIDs). -/
def mkSingleSectionAd (dt : Nat) (bytes : List Nat) : IBluetoothLEAdvertisement where
  manufacturerData := some ⟨some 0, []⟩
  sectionsByType := fun t =>
    if t = dt then some ⟨some 1, [some ⟨some dt, some bytes⟩]⟩ else some ⟨some 0, []⟩
  serviceUuids := some ⟨some 0, []⟩

/-- Concrete advertisement for the service-data counterexample: one
section of type 0x16 with payload bytes [13, 24, 170]. -/
def cexAd : IBluetoothLEAdvertisement := mkSingleSectionAd 22 [13, 24, 170]

/-- Concrete device infos used to instantiate the agent theorems. -/
def devDupA : DeviceInfo := ⟨5, "a", 0, 2, [7, 7], 0, [], [], false⟩

def devDupB : DeviceInfo := ⟨5, "b", 0, 1, [9], 0, [], [], false⟩

def devFirst : DeviceInfo := ⟨5, "c", 0, 2, [1], 0, [], [], false⟩

def devSecond : DeviceInfo := ⟨5, "d", 0, 1, [2, 3], 0, [], [], false⟩

def devOther : DeviceInfo := ⟨8, "e", 0, 1, [4], -40, [(1, [2])], [(3, [4])], true⟩

/-- Concrete event arguments whose very first guarded platform call
fails. -/
def argsFailing : AdvArgs := ⟨none, some 0, none⟩

/-- Concrete worker state used to instantiate the callback theorems. -/
def stEmpty : WorkerState := ⟨[]⟩

/-- A concrete invalid adapter. -/
def adapterInvalid : LocalDevice := ⟨false, .connectable⟩

/-- A concrete valid but powered-off adapter. -/
def adapterOff : LocalDevice := ⟨true, .poweredOff⟩

/-- A concrete agent state with one discovered device and no worker. -/
def agentSt : AgentPrivate := ⟨.noError, "", [devOther], none⟩

end Winrt

namespace AndroidJni

/-- The five Java bridge classes whose native methods jni_android.cpp
registers, in registration order. -/
inductive BridgeClass where
  | broadcastReceiver
  | le
  | leServer
  | socketServer
  | inputStreamThread
deriving DecidableEq

/-- Registration order of the bridge classes. -/
def classIdx : BridgeClass → Nat
  | .broadcastReceiver => 0
  | .le => 1
  | .leServer => 2
  | .socketServer => 3
  | .inputStreamThread => 4

def allBridgeClasses : List BridgeClass :=
  [.broadcastReceiver, .le, .leServer, .socketServer, .inputStreamThread]

/-- The JNI environment as observed by `JNI_OnLoad` / `registerNatives`:
whether `GetEnv` succeeds, and for each bridge class whether `FindClass`
and `RegisterNatives` succeed. -/
structure JniEnv where
  getEnvOk : Bool
  findBroadcastReceiver : Bool
  regBroadcastReceiver : Bool
  findLe : Bool
  regLe : Bool
  findLeServer : Bool
  regLeServer : Bool
  findSocketServer : Bool
  regSocketServer : Bool
  findInputStreamThread : Bool
  regInputStreamThread : Bool
deriving DecidableEq

/-- Whether both `FindClass` and `RegisterNatives` succeed for a class. -/
def classOk (e : JniEnv) : BridgeClass → Bool
  | .broadcastReceiver => e.findBroadcastReceiver && e.regBroadcastReceiver
  | .le => e.findLe && e.regLe
  | .leServer => e.findLeServer && e.regLeServer
  | .socketServer => e.findSocketServer && e.regSocketServer
  | .inputStreamThread => e.findInputStreamThread && e.regInputStreamThread

/-- `registerNatives` (jni_android.cpp lines 231–267): the five classes
are processed in order; a failing `FindClass` (the `FIND_AND_CHECK_CLASS`
macro returns `JNI_FALSE`) or a negative `RegisterNatives` stops the
function with `false`.  The second component records the classes for
which registration was attempted (i.e. reached). -/
def registerNatives (e : JniEnv) : Bool × List BridgeClass :=
  if e.findBroadcastReceiver = false then (false, [.broadcastReceiver])
  else if e.regBroadcastReceiver = false then (false, [.broadcastReceiver])
  else if e.findLe = false then (false, [.broadcastReceiver, .le])
  else if e.regLe = false then (false, [.broadcastReceiver, .le])
  else if e.findLeServer = false then (false, [.broadcastReceiver, .le, .leServer])
  else if e.regLeServer = false then (false, [.broadcastReceiver, .le, .leServer])
  else if e.findSocketServer = false then
    (false, [.broadcastReceiver, .le, .leServer, .socketServer])
  else if e.regSocketServer = false then
    (false, [.broadcastReceiver, .le, .leServer, .socketServer])
  else if e.findInputStreamThread = false then (false, allBridgeClasses)
  else if e.regInputStreamThread = false then (false, allBridgeClasses)
  else (true, allBridgeClasses)

/-- `JNI_VERSION_1_6 = 0x00010006`. -/
def jniVersion16 : Int := 65542

/-- `JNI_OnLoad` (jni_android.cpp lines 269–299).  The static `initialized`
flag is the explicit first argument; it is set before `GetEnv` runs, so
even a failing load marks the library initialized.  The result is the
returned `jint`, the new value of the flag, and the classes for which
registration was attempted. -/
def JNI_OnLoad (loaded : Bool) (e : JniEnv) : Int × Bool × List BridgeClass :=
  if loaded then (jniVersion16, true, [])
  else if e.getEnvOk = false then (-1, true, [])
  else
    let r := registerNatives e
    if r.1 then (jniVersion16, true, r.2) else (-1, true, r.2)

/-- Concrete environment where the third class (QtBluetoothLEServer) fails
to register. -/
def envThirdFails : JniEnv :=
  ⟨true, true, true, true, true, true, false, true, true, true, true⟩

end AndroidJni

namespace BluezCodegen

/-- The observable actions of the generator script: one `qdbusxml2cpp`
invocation (recorded with its extra arguments, the `-p` header and cpp
targets, and the XML input), or appending one line to a file. -/
inductive ScriptAction where
  | runQdbusxml2cpp (args : List String) (headerFile : String)
      (cppFile : String) (xmlFile : String)
  | appendLine (file : String) (line : String)
deriving DecidableEq

/-- `QGLOBAL_P_H` of the script. -/
def qglobalHeader : String := "QtCore/private/qglobal_p.h"

/-- The `process` shell function: run `qdbusxml2cpp "$@" -i $QGLOBAL_P_H
-p ${B}_p.h:${B}.cpp $XML`, then append an empty line and the
`#include "moc_${B}_p.cpp"` line to `${B}.cpp`. -/
def process (cppBasename xmlFile : String) (extraArgs : List String) :
    List ScriptAction :=
  [ .runQdbusxml2cpp (extraArgs ++ ["-i", qglobalHeader])
      (cppBasename ++ "_p.h") (cppBasename ++ ".cpp") xmlFile,
    .appendLine (cppBasename ++ ".cpp") "",
    .appendLine (cppBasename ++ ".cpp") ("#include \"moc_" ++ cppBasename ++ "_p.cpp\"") ]

/-- The ten `process` invocations of the script, in order: basename, XML
file, and extra arguments. -/
def processInvocations : List (String × String × List String) :=
  [ ("adapter1_bluez5", "org.bluez.Adapter1.xml", []),
    ("device1_bluez5", "org.bluez.Device1.xml", ["-i", "bluez5_helper_p.h"]),
    ("profilemanager1", "org.bluez.ProfileManager1.xml", []),
    ("profile1", "org.bluez.Profile1.xml", []),
    ("objectmanager", "org.freedesktop.dbus.objectmanager.xml", ["-i", "bluez5_helper_p.h"]),
    ("properties", "org.freedesktop.dbus.properties.xml", []),
    ("gattchar1", "org.bluez.GattCharacteristic1.xml", []),
    ("gattdesc1", "org.bluez.GattDescriptor1.xml", []),
    ("gattservice1", "org.bluez.GattService1.xml", []),
    ("battery1", "org.bluez.Battery1.xml", []) ]

/-- The whole script: the concatenated actions of the ten `process`
invocations. -/
def generateScript : List ScriptAction :=
  (processInvocations.map (fun t => process t.1 t.2.1 t.2.2)).flatten

end BluezCodegen

/-! ## Theorems -/

namespace Winrt

/-- C10: the `quint128` `qbswap` reverses the byte order — byte `i` of the
result is byte `15 - i` of the input — and is therefore an involution. -/
theorem qbswap_byte_reversal_involution :
    ∀ (x : Quint128) (i : Fin 16),
      (qbswap x).data i = x.data ⟨15 - i.val, by omega⟩ ∧ qbswap (qbswap x) = x := by
  intro x i
  refine ⟨rfl, ?_⟩
  cases x with
  | mk f =>
    show Quint128.mk (fun j => f ⟨15 - (15 - j.val), by omega⟩) = Quint128.mk f
    congr 1
    funext j
    congr 1
    apply Fin.ext
    have hj := j.isLt
    simp
    omega

/-- C4: `supportedDiscoveryMethods` on the WinRT backend is the
combination `ClassicMethod | LowEnergyMethod`; both bits are reported as
supported. -/
theorem supportedDiscoveryMethods_classic_and_lowEnergy :
    supportedDiscoveryMethods = ClassicMethod ||| LowEnergyMethod
  ∧ supportedDiscoveryMethods &&& ClassicMethod = ClassicMethod
  ∧ supportedDiscoveryMethods &&& LowEnergyMethod = LowEnergyMethod := by
  decide

/-- C6: each of the seven callbacks the worker registers via
`put_Completed` / `add_Received` is guarded by the captured `QPointer`:
invoked after the worker is destroyed (the pointer is `none`) it performs
no worker action and returns `S_OK`. -/
theorem callbacks_noop_after_worker_destroyed :
    (∀ mode status, deviceDiscoveryCompletedHandler none mode status = ([], S_OK))
  ∧ (∀ args, advertisementReceivedHandler none args = ([], S_OK))
  ∧ (∀ status, classicDeviceFromIdCompletedHandler none status = ([], S_OK))
  ∧ (∀ status, leDeviceFromIdCompletedHandler none status = ([], S_OK))
  ∧ (∀ status, leDeviceFromAddressCompletedHandler none status = ([], S_OK))
  ∧ (∀ status address classOfDeviceInt btName,
      rfcommServicesCompletedHandler none status address classOfDeviceInt btName = ([], S_OK))
  ∧ (∀ status, leServicesCompletedHandler none status = ([], S_OK)) := by
  refine ⟨?_, ?_, ?_, ?_, ?_, ?_, ?_⟩
  · intro mode status
    simp [deviceDiscoveryCompletedHandler]
  · intro args
    rfl
  · intro status
    rfl
  · intro status
    rfl
  · intro status
    simp [leDeviceFromAddressCompletedHandler]
  · intro status address classOfDeviceInt btName
    rfl
  · intro status
    rfl

/-- C2 counterexample: for a platform response with a single 0x16 data
section carrying bytes [13, 24, 170], `extractServiceData` reports the
key `QBluetoothUuid(0x180D)` computed from the buffer's little-endian
2-byte prefix (13 + 24·256 = 6157) and a value that is not any
platform-provided section buffer — the worker itself byte-decodes the
section, so the service data does not come from the platform API without
byte-level interpretation. -/
theorem extractServiceData_byte_decoding_cex :
    extractServiceData cexAd = [(uuidFromUuid16 6157, [13, 24, 170, 2])]
  ∧ platformSectionBuffers cexAd = [[13, 24, 170]]
  ∧ ¬ serviceDataSuppliedByPlatform cexAd := by
  refine ⟨by decide, by decide, by decide⟩

/-- Helper: running the manufacturer-data loop over a well-formed platform
vector built from `pairs` appends exactly the pairs from index `i` on. -/
theorem mdLoop_mkManufacturerAd (pairs : MultiMap) :
    ∀ (n i : Nat) (ret : MultiMap), i + n ≤ pairs.length →
      mdLoop ⟨some pairs.length, pairs.map (fun p => some ⟨some p.1, some p.2⟩)⟩ i n ret
        = ret ++ ((pairs.drop i).take n) := by
  intro n
  induction n with
  | zero =>
    intro i ret _
    simp [mdLoop]
  | succ n ih =>
    intro i ret h
    have hi : i < pairs.length := by omega
    have hgd : (pairs.map (fun p => some (⟨some p.1, some p.2⟩ : BLEManufacturerDataItem))).getD i none
        = some ⟨some pairs[i].1, some pairs[i].2⟩ := by
      rw [List.getD_eq_getElem?_getD, List.getElem?_map, List.getElem?_eq_getElem hi]
      rfl
    have hdrop : pairs.drop i = pairs[i] :: pairs.drop (i + 1) :=
      List.drop_eq_getElem_cons hi
    rw [mdLoop, hgd]
    simp only
    rw [ih (i + 1) (multiHashInsert ret pairs[i].1 pairs[i].2) (by omega)]
    rw [hdrop, List.take_succ_cons]
    simp [multiHashInsert]

/-- C2 (amended): manufacturer data passes through from the platform API
without byte-level interpretation — `extractManufacturerData` returns the
platform's (company id, buffer) pairs unchanged — but service data is
byte-decoded by this project: for a section of type 0x16 / 0x20 / 0x21 the
key is the buffer's little-endian 16/32/128-bit prefix turned into a
`QBluetoothUuid`, and the value is the buffer with the byte 2 / 4 / 16
appended (the effect of `bufferData + 2` etc. on a `QByteArray`). -/
theorem extract_advertisement_data_characterization :
    (∀ pairs : MultiMap, extractManufacturerData (mkManufacturerAd pairs) = pairs)
  ∧ (∀ bytes : List Nat,
      extractServiceData (mkSingleSectionAd 22 bytes)
        = [(uuidFromUuid16 (leUInt16 bytes), bytes ++ [2])]
    ∧ extractServiceData (mkSingleSectionAd 32 bytes)
        = [(uuidFromUuid32 (leUInt32 bytes), bytes ++ [4])]
    ∧ extractServiceData (mkSingleSectionAd 33 bytes)
        = [(uuidFromQuint128 (qbswap (quint128OfBytes bytes)), bytes ++ [16])]) := by
  constructor
  · intro pairs
    show mdLoop _ 0 pairs.length [] = pairs
    rw [mdLoop_mkManufacturerAd pairs pairs.length 0 [] (by omega)]
    simp
  · intro bytes
    refine ⟨rfl, rfl, rfl⟩

end Winrt

namespace AndroidJni

/-- C7: `JNI_OnLoad` returns `-1` exactly when `GetEnv` fails or when the
registration of some bridge class fails; registration is attempted for a
class exactly when `GetEnv` and every earlier class succeeded (so it stops
at the first failing class); otherwise it returns `JNI_VERSION_1_6`, and a
call after the first (successful or merely attempted) initialization
returns `JNI_VERSION_1_6` with no registration attempts at all. -/
theorem jniOnLoad_spec :
    ∀ e : JniEnv,
      JNI_OnLoad true e = (jniVersion16, true, [])
    ∧ ((JNI_OnLoad false e).1 =
        if e.getEnvOk && allBridgeClasses.all (classOk e) then jniVersion16 else -1)
    ∧ (∀ c ∈ allBridgeClasses,
        c ∈ (JNI_OnLoad false e).2.2 ↔
          e.getEnvOk = true ∧ ∀ c2 ∈ allBridgeClasses,
            classIdx c2 < classIdx c → classOk e c2 = true) := by
  intro e
  obtain ⟨g, a1, a2, b1, b2, c1, c2, d1, d2, f1, f2⟩ := e
  revert g a1 a2 b1 b2 c1 c2 d1 d2 f1 f2
  decide

/-- C7 witness: in the concrete environment where the third class
(QtBluetoothLEServer) fails, loading fails with -1, registration was
attempted for the third class but not for the fourth. -/
theorem jniOnLoad_spec_witness :
    (JNI_OnLoad false envThirdFails).1 = -1
  ∧ (BridgeClass.leServer ∈ (JNI_OnLoad false envThirdFails).2.2 ↔
      envThirdFails.getEnvOk = true ∧ ∀ c2 ∈ allBridgeClasses,
        classIdx c2 < classIdx BridgeClass.leServer → classOk envThirdFails c2 = true)
  ∧ (BridgeClass.socketServer ∈ (JNI_OnLoad false envThirdFails).2.2 ↔
      envThirdFails.getEnvOk = true ∧ ∀ c2 ∈ allBridgeClasses,
        classIdx c2 < classIdx BridgeClass.socketServer → classOk envThirdFails c2 = true) := by
  refine ⟨?_, ?_, ?_⟩
  · have h := (jniOnLoad_spec envThirdFails).2.1
    rw [h]
    decide
  · exact (jniOnLoad_spec envThirdFails).2.2 BridgeClass.leServer (by decide)
  · exact (jniOnLoad_spec envThirdFails).2.2 BridgeClass.socketServer (by decide)

end AndroidJni

namespace Winrt

/-- C5: `start` reports precondition failures through signals and leaves
discovery unstarted — an invalid adapter sets `lastError` to
`InvalidBluetoothAdapterError`, emits exactly `errorOccurred` with that
error, creates no worker and keeps `discoveredDevices`; a valid but
powered-off adapter does the same with `PoweredOffError`. -/
theorem start_error_paths :
    ∀ (adapter : LocalDevice) (t : Int) (st : AgentPrivate) (methods : Nat),
      (adapter.isValid = false →
        (start adapter t st methods).1.lastError = .invalidBluetoothAdapterError
      ∧ (start adapter t st methods).2 = [.errorOccurred .invalidBluetoothAdapterError]
      ∧ (start adapter t st methods).1.worker = st.worker
      ∧ (start adapter t st methods).1.discoveredDevices = st.discoveredDevices)
    ∧ (adapter.isValid = true → adapter.hostMode = .poweredOff →
        (start adapter t st methods).1.lastError = .poweredOffError
      ∧ (start adapter t st methods).2 = [.errorOccurred .poweredOffError]
      ∧ (start adapter t st methods).1.worker = st.worker
      ∧ (start adapter t st methods).1.discoveredDevices = st.discoveredDevices) := by
  intro adapter t st methods
  constructor
  · intro h
    simp [start, h]
  · intro hv hm
    simp [start, hv, hm]

/-- C5 witness: the two error paths at concrete inputs. -/
theorem start_error_paths_witness :
    ((start adapterInvalid 0 agentSt 3).1.lastError = .invalidBluetoothAdapterError
    ∧ (start adapterInvalid 0 agentSt 3).2 = [.errorOccurred .invalidBluetoothAdapterError]
    ∧ (start adapterInvalid 0 agentSt 3).1.worker = agentSt.worker
    ∧ (start adapterInvalid 0 agentSt 3).1.discoveredDevices = agentSt.discoveredDevices)
  ∧ ((start adapterOff 0 agentSt 3).1.lastError = .poweredOffError
    ∧ (start adapterOff 0 agentSt 3).2 = [.errorOccurred .poweredOffError]
    ∧ (start adapterOff 0 agentSt 3).1.worker = agentSt.worker
    ∧ (start adapterOff 0 agentSt 3).1.discoveredDevices = agentSt.discoveredDevices) :=
  ⟨(start_error_paths adapterInvalid 0 agentSt 3).1 rfl,
   (start_error_paths adapterOff 0 agentSt 3).2 rfl rfl⟩

end Winrt

namespace Winrt

/-- Helper: a failing `GetAt` somewhere in the scanned index range makes
the GUID-collecting loop abort with `none`. -/
theorem collectGuids_eq_none (v : GuidVector) :
    ∀ (n i : Nat),
      (List.range n).any (fun j => (v.items.getD (i + j) none).isNone) = true →
      collectGuids v i n = none := by
  intro n
  induction n with
  | zero =>
    intro i h
    simp at h
  | succ n ih =>
    intro i h
    rw [List.any_eq_true] at h
    obtain ⟨j, hj, hfail⟩ := h
    rw [List.mem_range] at hj
    cases hgd : v.items.getD i none with
    | none =>
      rw [List.getD_eq_getElem?_getD] at hgd
      simp [collectGuids, hgd]
    | some g =>
      have hj0 : j ≠ 0 := by
        intro h0
        subst h0
        rw [Nat.add_zero, hgd] at hfail
        simp at hfail
      obtain ⟨j', rfl⟩ : ∃ j', j = j' + 1 := ⟨j - 1, by omega⟩
      have hrec : collectGuids v (i + 1) n = none := by
        apply ih
        rw [List.any_eq_true]
        refine ⟨j', by rw [List.mem_range]; omega, ?_⟩
        have harith : i + 1 + j' = i + (j' + 1) := by omega
        rw [harith]
        exact hfail
      rw [List.getD_eq_getElem?_getD] at hgd
      simp [collectGuids, hgd, hrec]

/-- C1: for every worker state and every platform behaviour, the
LE-advertisement callback returns `S_OK` — a failed `HRESULT` is never
propagated out of the callback — and whenever some platform call guarded
by `EMIT_WORKER_ERROR_AND_RETURN_IF_FAILED` fails, the worker emits
`errorOccured(UnknownError)`. -/
theorem advertisementReceived_error_handling :
    ∀ (st : WorkerState) (args : AdvArgs),
      (onBluetoothLEAdvertisementReceived st args).hr = S_OK
    ∧ (advGuardedCallFailed args = true →
        WorkerSignal.errorOccured AgentError.unknownError ∈
          (onBluetoothLEAdvertisementReceived st args).signals) := by
  intro st args
  obtain ⟨addr, rssi, ad⟩ := args
  cases addr with
  | none => exact ⟨rfl, fun _ => by simp [onBluetoothLEAdvertisementReceived]⟩
  | some address =>
    cases rssi with
    | none => exact ⟨rfl, fun _ => by simp [onBluetoothLEAdvertisementReceived]⟩
    | some r =>
      cases ad with
      | none => exact ⟨rfl, fun _ => by simp [onBluetoothLEAdvertisementReceived]⟩
      | some a =>
        cases hsu : a.serviceUuids with
        | none =>
          constructor
          · simp [onBluetoothLEAdvertisementReceived, hsu]
          · intro _
            simp [onBluetoothLEAdvertisementReceived, hsu]
        | some guids =>
          cases hsz : guids.size with
          | none =>
            constructor
            · simp [onBluetoothLEAdvertisementReceived, hsu, hsz]
            · intro _
              simp [onBluetoothLEAdvertisementReceived, hsu, hsz]
          | some size =>
            cases hcg : collectGuids guids 0 size with
            | none =>
              constructor
              · simp [onBluetoothLEAdvertisementReceived, hsu, hsz, hcg]
              · intro _
                simp [onBluetoothLEAdvertisementReceived, hsu, hsz, hcg]
            | some uuids =>
              constructor
              · simp [onBluetoothLEAdvertisementReceived, hsu, hsz, hcg]
              · intro hfail
                exfalso
                simp only [advGuardedCallFailed, hsu, hsz] at hfail
                have : collectGuids guids 0 size = none := by
                  apply collectGuids_eq_none
                  simpa using hfail
                rw [this] at hcg
                exact Option.noConfusion hcg

/-- C1 witness: at a concrete failing platform response the callback
returns `S_OK` and the `UnknownError` signal is emitted. -/
theorem advertisementReceived_error_handling_witness :
    (onBluetoothLEAdvertisementReceived stEmpty argsFailing).hr = S_OK
  ∧ WorkerSignal.errorOccured AgentError.unknownError ∈
      (onBluetoothLEAdvertisementReceived stEmpty argsFailing).signals :=
  ⟨(advertisementReceived_error_handling stEmpty argsFailing).1,
   (advertisementReceived_error_handling stEmpty argsFailing).2 rfl⟩

end Winrt

namespace Winrt

/-- Helper: the attributes of one `updateEntry` result — the flagged
attributes take the new values, every other attribute is unchanged. -/
theorem updateEntry_fields (fields : Nat) (rssi : Int) (md sd : MultiMap) (d : DeviceInfo) :
    (updateEntry fields rssi md sd d).address = d.address
  ∧ (updateEntry fields rssi md sd d).name = d.name
  ∧ (updateEntry fields rssi md sd d).classOfDevice = d.classOfDevice
  ∧ (updateEntry fields rssi md sd d).coreConfigurations = d.coreConfigurations
  ∧ (updateEntry fields rssi md sd d).serviceUuids = d.serviceUuids
  ∧ (updateEntry fields rssi md sd d).cached = d.cached
  ∧ (updateEntry fields rssi md sd d).rssi
      = (if testFlag fields fieldRSSI then rssi else d.rssi)
  ∧ (updateEntry fields rssi md sd d).manufacturerData
      = (if testFlag fields fieldManufacturerData then
          multiMapSetAll d.manufacturerData md else d.manufacturerData)
  ∧ (updateEntry fields rssi md sd d).serviceData
      = (if testFlag fields fieldServiceData then
          multiMapSetAll d.serviceData sd else d.serviceData) := by
  unfold updateEntry
  by_cases h1 : testFlag fields fieldRSSI <;>
    by_cases h2 : testFlag fields fieldManufacturerData <;>
      by_cases h3 : testFlag fields fieldServiceData <;>
        simp [h1, h2, h3]

/-- Helper: mapping an address-guarded rewrite over entries whose
addresses all differ from the given address changes nothing. -/
theorem map_addressIte_id (l : List DeviceInfo) (address : Nat) (f : DeviceInfo → DeviceInfo)
    (h : address ∉ l.map (fun d => d.address)) :
    l.map (fun d => if d.address = address then f d else d) = l := by
  induction l with
  | nil => rfl
  | cons d rest ih =>
    simp only [List.map_cons, List.mem_cons, not_or] at h
    obtain ⟨h1, h2⟩ := h
    rw [List.map_cons, if_neg (fun he => h1 he.symm), ih h2]

/-- Helper: the update loop leaves a list without the address untouched
and emits nothing. -/
theorem updateDeviceDataGo_not_found (address fields : Nat) (rssi : Int) (md sd : MultiMap) :
    ∀ devs : List DeviceInfo, address ∉ devs.map (fun d => d.address) →
      updateDeviceDataGo address fields rssi md sd devs = (devs, []) := by
  intro devs
  induction devs with
  | nil => intro _; rfl
  | cons d rest ih =>
    intro h
    simp only [List.map_cons, List.mem_cons, not_or] at h
    obtain ⟨h1, h2⟩ := h
    simp only [updateDeviceDataGo]
    rw [if_neg (fun he => h1 he.symm), ih h2]

/-- Helper: on a duplicate-free list containing a matching entry, the
update loop rewrites exactly that entry with `updateEntry` and emits
`deviceUpdated` once. -/
theorem updateDeviceDataGo_found (address fields : Nat) (rssi : Int) (md sd : MultiMap) :
    ∀ devs : List DeviceInfo, ((devs.map (fun d => d.address)).Nodup) →
      ∀ d0 ∈ devs, d0.address = address →
        updateDeviceDataGo address fields rssi md sd devs =
          (devs.map (fun d =>
              if d.address = address then updateEntry fields rssi md sd d0 else d),
            [.deviceUpdated (updateEntry fields rssi md sd d0) fields]) := by
  intro devs
  induction devs with
  | nil =>
    intro _ d0 h0
    exact absurd h0 (List.not_mem_nil d0)
  | cons d rest ih =>
    intro hnd d0 hd0 haddr
    rw [List.map_cons, List.nodup_cons] at hnd
    obtain ⟨hdni, hndr⟩ := hnd
    rcases List.mem_cons.mp hd0 with rfl | hmem
    · have hrest : address ∉ rest.map (fun x => x.address) := haddr ▸ hdni
      simp only [updateDeviceDataGo]
      rw [if_pos haddr, List.map_cons, if_pos haddr, map_addressIte_id rest address _ hrest]
    · have hda : d.address ≠ address := by
        intro he
        exact hdni (he ▸ List.mem_map.mpr ⟨d0, hmem, haddr⟩)
      simp only [updateDeviceDataGo]
      rw [if_neg hda, ih hndr d0 hmem haddr, List.map_cons, if_neg hda]

/-- C9: `updateDeviceData` is a frame-preserving update — with
`Field::None` set (i.e. an empty flag set) or no matching address the
list is unchanged and nothing is emitted; otherwise exactly the single
matching entry is rewritten, only the flagged RSSI / manufacturer-data /
service-data attributes change on it, every other entry and attribute is
unchanged, and `deviceUpdated` is emitted exactly once. -/
theorem updateDeviceData_frame_spec :
    ∀ (devs : List DeviceInfo) (address fields : Nat) (rssi : Int) (md sd : MultiMap),
      ((devs.map (fun d => d.address)).Nodup) →
      (fields = 0 → updateDeviceData devs address fields rssi md sd = (devs, []))
    ∧ (address ∉ devs.map (fun d => d.address) →
        updateDeviceData devs address fields rssi md sd = (devs, []))
    ∧ (fields ≠ 0 → ∀ d0 ∈ devs, d0.address = address →
        ∃ upd : DeviceInfo,
          upd.address = d0.address
        ∧ upd.name = d0.name
        ∧ upd.classOfDevice = d0.classOfDevice
        ∧ upd.coreConfigurations = d0.coreConfigurations
        ∧ upd.serviceUuids = d0.serviceUuids
        ∧ upd.cached = d0.cached
        ∧ upd.rssi = (if testFlag fields fieldRSSI then rssi else d0.rssi)
        ∧ upd.manufacturerData
            = (if testFlag fields fieldManufacturerData then
                multiMapSetAll d0.manufacturerData md else d0.manufacturerData)
        ∧ upd.serviceData
            = (if testFlag fields fieldServiceData then
                multiMapSetAll d0.serviceData sd else d0.serviceData)
        ∧ updateDeviceData devs address fields rssi md sd =
            (devs.map (fun d => if d.address = address then upd else d),
              [.deviceUpdated upd fields])) := by
  intro devs address fields rssi md sd hnd
  refine ⟨?_, ?_, ?_⟩
  · intro h0
    simp [updateDeviceData, testFlag, fieldNone, h0]
  · intro hnm
    by_cases h0 : fields = 0
    · simp [updateDeviceData, testFlag, fieldNone, h0]
    · rw [updateDeviceData, if_neg (by simp [testFlag, fieldNone, h0])]
      exact updateDeviceDataGo_not_found address fields rssi md sd devs hnm
  · intro hne d0 hd0 haddr
    obtain ⟨e1, e2, e3, e4, e5, e6, e7, e8, e9⟩ := updateEntry_fields fields rssi md sd d0
    refine ⟨updateEntry fields rssi md sd d0, e1, e2, e3, e4, e5, e6, e7, e8, e9, ?_⟩
    rw [updateDeviceData, if_neg (by simp [testFlag, fieldNone, hne])]
    exact updateDeviceDataGo_found address fields rssi md sd devs hnd d0 hd0 haddr

/-- C9 witness: a concrete update with RSSI and service data flagged
(fields = 5) on a two-entry list. -/
theorem updateDeviceData_frame_witness :
    ∃ upd : DeviceInfo,
      upd.address = devFirst.address
    ∧ upd.name = devFirst.name
    ∧ upd.classOfDevice = devFirst.classOfDevice
    ∧ upd.coreConfigurations = devFirst.coreConfigurations
    ∧ upd.serviceUuids = devFirst.serviceUuids
    ∧ upd.cached = devFirst.cached
    ∧ upd.rssi = (if testFlag 5 fieldRSSI then -7 else devFirst.rssi)
    ∧ upd.manufacturerData
        = (if testFlag 5 fieldManufacturerData then
            multiMapSetAll devFirst.manufacturerData [] else devFirst.manufacturerData)
    ∧ upd.serviceData
        = (if testFlag 5 fieldServiceData then
            multiMapSetAll devFirst.serviceData [(9, [1])] else devFirst.serviceData)
    ∧ updateDeviceData [devOther, devFirst] 5 5 (-7) [] [(9, [1])] =
        ([devOther, devFirst].map (fun d => if d.address = 5 then upd else d),
          [.deviceUpdated upd 5]) :=
  (updateDeviceData_frame_spec [devOther, devFirst] 5 5 (-7) [] [(9, [1])]
    (by decide)).2.2 (by decide) devFirst (by decide) rfl

end Winrt

namespace Winrt

/-- Helper: all attributes of a merged entry other than the service UUIDs
and the core configuration are those of the stored entry; the core
configuration is forced to 3 exactly when the two configurations
differ. -/
theorem mergeDevice_frame (d info : DeviceInfo) :
    (mergeDevice d info).address = d.address
  ∧ (mergeDevice d info).name = d.name
  ∧ (mergeDevice d info).classOfDevice = d.classOfDevice
  ∧ (mergeDevice d info).rssi = d.rssi
  ∧ (mergeDevice d info).manufacturerData = d.manufacturerData
  ∧ (mergeDevice d info).serviceData = d.serviceData
  ∧ (mergeDevice d info).cached = d.cached
  ∧ (mergeDevice d info).coreConfigurations
      = (if d.coreConfigurations = info.coreConfigurations
          then d.coreConfigurations else 3) := by
  unfold mergeDevice
  by_cases h1 : d.serviceUuids.length ≠ (d.serviceUuids ++ info.serviceUuids).dedup.length <;>
    by_cases h2 : d.coreConfigurations = info.coreConfigurations <;>
      simp [h1, h2]

/-- Helper: the merged service-UUID list is the deduplicated
concatenation when the stored list's length differs from it, and the
stored list otherwise. -/
theorem mergeDevice_serviceUuids (d info : DeviceInfo) :
    (mergeDevice d info).serviceUuids
      = (if d.serviceUuids.length ≠ (d.serviceUuids ++ info.serviceUuids).dedup.length
          then (d.serviceUuids ++ info.serviceUuids).dedup
          else d.serviceUuids) := by
  unfold mergeDevice
  by_cases h1 : d.serviceUuids.length ≠ (d.serviceUuids ++ info.serviceUuids).dedup.length <;>
    by_cases h2 : d.coreConfigurations = info.coreConfigurations <;>
      simp [h1, h2]

/-- Helper: if a duplicate-free list is as long as the deduplicated
concatenation with another list, the other list is contained in it. -/
theorem mem_of_dedup_length_eq (xs ys : List Nat) (hnd : xs.Nodup)
    (hlen : xs.length = ((xs ++ ys).dedup).length) : ∀ u ∈ ys, u ∈ xs := by
  have hsub : xs.toFinset ⊆ (xs ++ ys).toFinset := by
    intro a ha
    rw [List.mem_toFinset] at ha
    rw [List.mem_toFinset, List.mem_append]
    exact Or.inl ha
  have hcard : (xs ++ ys).toFinset.card ≤ xs.toFinset.card := by
    rw [List.card_toFinset, List.card_toFinset, hnd.dedup]
    omega
  have heq : xs.toFinset = (xs ++ ys).toFinset :=
    Finset.eq_of_subset_of_card_le hsub hcard
  intro u hu
  have hmem : u ∈ (xs ++ ys).toFinset := by
    rw [List.mem_toFinset, List.mem_append]
    exact Or.inr hu
  rw [← heq, List.mem_toFinset] at hmem
  exact hmem

/-- Helper: when the stored service-UUID list is duplicate-free, the
merged list holds exactly the union of the stored and incoming UUIDs. -/
theorem mergeDevice_serviceUuids_mem (d info : DeviceInfo)
    (hnd : d.serviceUuids.Nodup) :
    ∀ u, u ∈ (mergeDevice d info).serviceUuids ↔
      u ∈ d.serviceUuids ∨ u ∈ info.serviceUuids := by
  intro u
  rw [mergeDevice_serviceUuids]
  by_cases h1 : d.serviceUuids.length = ((d.serviceUuids ++ info.serviceUuids).dedup).length
  · rw [if_neg (by simpa using h1)]
    constructor
    · exact fun h => Or.inl h
    · rintro (h | h)
      · exact h
      · exact mem_of_dedup_length_eq d.serviceUuids info.serviceUuids hnd h1 u h
  · rw [if_pos h1, List.mem_dedup, List.mem_append]

/-- Helper: merging preserves duplicate-freeness of the stored
service-UUID list. -/
theorem mergeDevice_serviceUuids_nodup (d info : DeviceInfo)
    (hnd : d.serviceUuids.Nodup) :
    (mergeDevice d info).serviceUuids.Nodup := by
  rw [mergeDevice_serviceUuids]
  split
  · exact List.nodup_dedup _
  · exact hnd

/-- Helper: registering an already-present address keeps the address list
unchanged. -/
theorem registerDevice_map_address_of_mem (info : DeviceInfo) :
    ∀ devs : List DeviceInfo, info.address ∈ devs.map (fun d => d.address) →
      (registerDevice devs info).1.map (fun d => d.address)
        = devs.map (fun d => d.address) := by
  intro devs
  induction devs with
  | nil => intro h; simp at h
  | cons d rest ih =>
    intro h
    by_cases hd : d.address = info.address
    · simp only [registerDevice]
      rw [if_pos hd, List.map_cons, List.map_cons, (mergeDevice_frame d info).1]
    · have hm : info.address ∈ rest.map (fun x => x.address) := by
        rcases List.mem_cons.mp h with he | hm
        · exact absurd he.symm hd
        · exact hm
      simp only [registerDevice]
      rw [if_neg hd]
      simp only [List.map_cons]
      rw [ih hm]

/-- Helper: registering a fresh address appends it to the address list. -/
theorem registerDevice_map_address_of_not_mem (info : DeviceInfo) :
    ∀ devs : List DeviceInfo, info.address ∉ devs.map (fun d => d.address) →
      (registerDevice devs info).1.map (fun d => d.address)
        = devs.map (fun d => d.address) ++ [info.address] := by
  intro devs
  induction devs with
  | nil => intro _; rfl
  | cons d rest ih =>
    intro h
    simp only [List.map_cons, List.mem_cons, not_or] at h
    obtain ⟨h1, h2⟩ := h
    simp only [registerDevice]
    rw [if_neg (fun he => h1 he.symm)]
    simp only [List.map_cons]
    rw [ih h2, List.cons_append]

/-- Helper: registering an already-present address emits nothing. -/
theorem registerDevice_snd_of_mem (info : DeviceInfo) :
    ∀ devs : List DeviceInfo, info.address ∈ devs.map (fun d => d.address) →
      (registerDevice devs info).2 = [] := by
  intro devs
  induction devs with
  | nil => intro h; simp at h
  | cons d rest ih =>
    intro h
    by_cases hd : d.address = info.address
    · simp [registerDevice, hd]
    · have hm : info.address ∈ rest.map (fun x => x.address) := by
        rcases List.mem_cons.mp h with he | hm
        · exact absurd he.symm hd
        · exact hm
      simp [registerDevice, hd, ih hm]

/-- Helper: registering a fresh address emits `deviceDiscovered` once. -/
theorem registerDevice_snd_of_not_mem (info : DeviceInfo) :
    ∀ devs : List DeviceInfo, info.address ∉ devs.map (fun d => d.address) →
      (registerDevice devs info).2 = [.deviceDiscovered info] := by
  intro devs
  induction devs with
  | nil => intro _; rfl
  | cons d rest ih =>
    intro h
    simp only [List.map_cons, List.mem_cons, not_or] at h
    obtain ⟨h1, h2⟩ := h
    have hda : ¬ d.address = info.address := fun he => h1 he.symm
    simp only [registerDevice]
    rw [if_neg hda]
    exact ih h2

/-- Helper: on a duplicate-free list, registering an already-present
address rewrites exactly the matching entry with `mergeDevice`. -/
theorem registerDevice_fst_of_mem (info : DeviceInfo) :
    ∀ devs : List DeviceInfo, ((devs.map (fun d => d.address)).Nodup) →
      info.address ∈ devs.map (fun d => d.address) →
      (registerDevice devs info).1
        = devs.map (fun d => if d.address = info.address then mergeDevice d info else d) := by
  intro devs
  induction devs with
  | nil => intro _ h; simp at h
  | cons d rest ih =>
    intro hnd h
    rw [List.map_cons, List.nodup_cons] at hnd
    obtain ⟨hdni, hndr⟩ := hnd
    by_cases hd : d.address = info.address
    · have hrest : info.address ∉ rest.map (fun x => x.address) := hd ▸ hdni
      simp only [registerDevice]
      rw [if_pos hd, List.map_cons, if_pos hd,
        map_addressIte_id rest info.address _ hrest]
    · have hm : info.address ∈ rest.map (fun x => x.address) := by
        rcases List.mem_cons.mp h with he | hm
        · exact absurd he.symm hd
        · exact hm
      simp only [registerDevice]
      rw [if_neg hd]
      simp only [List.map_cons]
      rw [if_neg hd, ih hndr hm]

/-- Helper: registering preserves duplicate-freeness of every stored
service-UUID list. -/
theorem registerDevice_uuids_nodup (info : DeviceInfo)
    (hinfo : info.serviceUuids.Nodup) :
    ∀ devs : List DeviceInfo, (∀ d ∈ devs, d.serviceUuids.Nodup) →
      ∀ d ∈ (registerDevice devs info).1, d.serviceUuids.Nodup := by
  intro devs
  induction devs with
  | nil =>
    intro _ d hd
    simp [registerDevice] at hd
    exact hd ▸ hinfo
  | cons d0 rest ih =>
    intro hall d hd
    by_cases hda : d0.address = info.address
    · simp only [registerDevice, if_pos hda, List.mem_cons] at hd
      rcases hd with rfl | hmem
      · exact mergeDevice_serviceUuids_nodup d0 info (hall d0 (List.mem_cons_self d0 rest))
      · exact hall d (List.mem_cons.mpr (Or.inr hmem))
    · simp only [registerDevice, if_neg hda, List.mem_cons] at hd
      rcases hd with rfl | hmem
      · exact hall d (List.mem_cons_self d rest)
      · exact ih (fun x hx => hall x (List.mem_cons.mpr (Or.inr hx))) d hmem

/-- Helper: the devices accumulated by `registerAll` depend only on the
device component of the accumulator. -/
theorem registerAll_fst_eq :
    ∀ (calls : List DeviceInfo) (acc : List DeviceInfo × List AgentEvent),
      (calls.foldl (fun acc info =>
        let r := registerDevice acc.1 info
        (r.1, acc.2 ++ r.2)) acc).1
        = calls.foldl (fun devs info => (registerDevice devs info).1) acc.1 := by
  intro calls
  induction calls with
  | nil => intro acc; rfl
  | cons c rest ih =>
    intro acc
    simp only [List.foldl_cons]
    exact ih _

/-- Helper invariant of the device fold: duplicate-free addresses,
duplicate-free stored UUID lists, and the address set is the union of the
start addresses and the registered addresses. -/
theorem devsFold_invariant :
    ∀ (calls : List DeviceInfo) (devs : List DeviceInfo),
      ((devs.map (fun d => d.address)).Nodup) →
      (∀ d ∈ devs, d.serviceUuids.Nodup) →
      (∀ c ∈ calls, c.serviceUuids.Nodup) →
      (((calls.foldl (fun devs info => (registerDevice devs info).1) devs).map
          (fun d => d.address)).Nodup)
    ∧ (∀ d ∈ calls.foldl (fun devs info => (registerDevice devs info).1) devs,
        d.serviceUuids.Nodup)
    ∧ (∀ a, a ∈ (calls.foldl (fun devs info => (registerDevice devs info).1) devs).map
          (fun d => d.address) ↔
        a ∈ devs.map (fun d => d.address) ∨ a ∈ calls.map (fun d => d.address)) := by
  intro calls
  induction calls with
  | nil =>
    intro devs h1 h2 _
    exact ⟨h1, h2, fun a => by simp⟩
  | cons c rest ih =>
    intro devs h1 h2 h3
    have hc : c.serviceUuids.Nodup := h3 c (List.mem_cons_self c rest)
    have hrest : ∀ x ∈ rest, x.serviceUuids.Nodup :=
      fun x hx => h3 x (List.mem_cons.mpr (Or.inr hx))
    have hnd' : (((registerDevice devs c).1.map (fun d => d.address)).Nodup) := by
      by_cases hm : c.address ∈ devs.map (fun d => d.address)
      · rw [registerDevice_map_address_of_mem c devs hm]
        exact h1
      · rw [registerDevice_map_address_of_not_mem c devs hm]
        rw [List.nodup_append]
        refine ⟨h1, List.nodup_singleton _, ?_⟩
        intro x hx hxa
        rw [List.mem_singleton] at hxa
        exact hm (hxa ▸ hx)
    have huu' : ∀ d ∈ (registerDevice devs c).1, d.serviceUuids.Nodup :=
      registerDevice_uuids_nodup c hc devs h2
    have hmem' : ∀ a, a ∈ (registerDevice devs c).1.map (fun d => d.address) ↔
        a ∈ devs.map (fun d => d.address) ∨ a = c.address := by
      intro a
      by_cases hm : c.address ∈ devs.map (fun d => d.address)
      · rw [registerDevice_map_address_of_mem c devs hm]
        constructor
        · exact fun h => Or.inl h
        · rintro (h | rfl)
          · exact h
          · exact hm
      · rw [registerDevice_map_address_of_not_mem c devs hm, List.mem_append,
          List.mem_singleton]
    obtain ⟨g1, g2, g3⟩ := ih (registerDevice devs c).1 hnd' huu' hrest
    refine ⟨g1, g2, ?_⟩
    intro a
    rw [List.foldl_cons] at *
    rw [g3 a, hmem' a, List.map_cons, List.mem_cons]
    tauto

/-- Helper: the invariant instantiated for `registerAll` from the empty
list. -/
theorem registerAll_invariant (calls : List DeviceInfo)
    (h : ∀ c ∈ calls, c.serviceUuids.Nodup) :
    (((registerAll calls).1.map (fun d => d.address)).Nodup)
  ∧ (∀ d ∈ (registerAll calls).1, d.serviceUuids.Nodup)
  ∧ (∀ a, a ∈ (registerAll calls).1.map (fun d => d.address) ↔
      a ∈ calls.map (fun d => d.address)) := by
  have he := registerAll_fst_eq calls ([], [])
  unfold registerAll
  rw [he]
  obtain ⟨g1, g2, g3⟩ :=
    devsFold_invariant calls [] (by simp) (fun d hd => absurd hd (List.not_mem_nil d)) h
  refine ⟨g1, g2, ?_⟩
  intro a
  rw [g3 a]
  simp

end Winrt

namespace Winrt

/-- C3 counterexample: registering address 5 first with service-UUID list
[7, 7] (a duplicate) and then with [9] does NOT merge the lists as a set
union — the stored list's length (2) already equals the size of the set
{7, 9}, so the guard `iter->serviceUuids().size() != uuidSet.size()`
skips the rewrite and UUID 9 is lost, although the second call's list
contains it. -/
theorem registerDevice_setUnion_cex :
    devDupB.address = devDupA.address
  ∧ 9 ∈ devDupB.serviceUuids
  ∧ (registerAll [devDupA, devDupB]).1.map (fun d => d.serviceUuids) = [[7, 7]]
  ∧ ∀ d ∈ (registerAll [devDupA, devDupB]).1, 9 ∉ d.serviceUuids := by
  decide

/-- C3 (amended): for every sequence of `registerDevice` calls in which
each call's service-UUID list is duplicate-free, `discoveredDevices`
never contains two entries with the same address, `deviceDiscovered` is
emitted exactly on the call that first introduces an address, and a later
call with an already-present address emits nothing and only merges the
service-UUID lists as a set union (updating the core configuration to
`BaseRateAndLowEnergy` when the configurations differ), leaving every
other attribute and entry unchanged. -/
theorem registerDevice_amended_spec :
    ∀ (calls : List DeviceInfo) (info : DeviceInfo),
      (∀ c ∈ calls, c.serviceUuids.Nodup) → info.serviceUuids.Nodup →
      (((registerAll calls).1.map (fun d => d.address)).Nodup)
    ∧ ((registerDevice (registerAll calls).1 info).2
        = (if info.address ∈ calls.map (fun d => d.address) then []
            else [.deviceDiscovered info]))
    ∧ (info.address ∈ calls.map (fun d => d.address) →
        ((registerDevice (registerAll calls).1 info).1
            = (registerAll calls).1.map
                (fun d => if d.address = info.address then mergeDevice d info else d))
      ∧ ∀ d ∈ (registerAll calls).1, d.address = info.address →
          ((∀ u, u ∈ (mergeDevice d info).serviceUuids ↔
              u ∈ d.serviceUuids ∨ u ∈ info.serviceUuids)
          ∧ (mergeDevice d info).address = d.address
          ∧ (mergeDevice d info).name = d.name
          ∧ (mergeDevice d info).classOfDevice = d.classOfDevice
          ∧ (mergeDevice d info).rssi = d.rssi
          ∧ (mergeDevice d info).manufacturerData = d.manufacturerData
          ∧ (mergeDevice d info).serviceData = d.serviceData
          ∧ (mergeDevice d info).cached = d.cached
          ∧ (mergeDevice d info).coreConfigurations
              = (if d.coreConfigurations = info.coreConfigurations
                  then d.coreConfigurations else 3))) := by
  intro calls info hcalls hinfo
  obtain ⟨hnd, huuids, hmem⟩ := registerAll_invariant calls hcalls
  refine ⟨hnd, ?_, ?_⟩
  · by_cases hm : info.address ∈ calls.map (fun d => d.address)
    · rw [if_pos hm]
      exact registerDevice_snd_of_mem info _ ((hmem info.address).mpr hm)
    · rw [if_neg hm]
      exact registerDevice_snd_of_not_mem info _ (fun hc => hm ((hmem info.address).mp hc))
  · intro hm
    refine ⟨registerDevice_fst_of_mem info _ hnd ((hmem info.address).mpr hm), ?_⟩
    intro d hd hda
    obtain ⟨f1, f2, f3, f4, f5, f6, f7, f8⟩ := mergeDevice_frame d info
    exact ⟨mergeDevice_serviceUuids_mem d info (huuids d hd), f1, f2, f3, f4, f5, f6, f7, f8⟩

/-- C3 witness: the amended theorem at a concrete duplicate-free
sequence. -/
theorem registerDevice_amended_witness :
    (((registerAll [devFirst]).1.map (fun d => d.address)).Nodup)
  ∧ ((registerDevice (registerAll [devFirst]).1 devSecond).2
      = (if devSecond.address ∈ [devFirst].map (fun d => d.address) then []
          else [.deviceDiscovered devSecond])) :=
  ⟨(registerDevice_amended_spec [devFirst] devSecond (by decide) (by decide)).1,
   (registerDevice_amended_spec [devFirst] devSecond (by decide) (by decide)).2.1⟩

end Winrt

namespace BluezCodegen

/-- C8: the script invokes `process` exactly ten times, once per listed
BlueZ/D-Bus interface XML file, and each invocation with basename `B` and
XML file `X` runs `qdbusxml2cpp` with `-p B_p.h:B.cpp` on `X` and then
appends a blank line followed by the single `#include "moc_B_p.cpp"` line
to `B.cpp`; the whole script is the concatenation of those actions. -/
theorem generateScript_spec :
    processInvocations.length = 10
  ∧ (∀ t ∈ processInvocations,
      process t.1 t.2.1 t.2.2 =
        [ .runQdbusxml2cpp (t.2.2 ++ ["-i", qglobalHeader])
            (t.1 ++ "_p.h") (t.1 ++ ".cpp") t.2.1,
          .appendLine (t.1 ++ ".cpp") "",
          .appendLine (t.1 ++ ".cpp") ("#include \"moc_" ++ t.1 ++ "_p.cpp\"") ])
  ∧ generateScript
      = (processInvocations.map (fun t => process t.1 t.2.1 t.2.2)).flatten
  ∧ generateScript.length = 30 := by
  refine ⟨rfl, ?_, rfl, rfl⟩
  intro t _
  rfl

/-- C8 witness: the first invocation expanded. -/
theorem generateScript_spec_witness :
    process "adapter1_bluez5" "org.bluez.Adapter1.xml" [] =
      [ .runQdbusxml2cpp ([] ++ ["-i", qglobalHeader])
          ("adapter1_bluez5" ++ "_p.h") ("adapter1_bluez5" ++ ".cpp") "org.bluez.Adapter1.xml",
        .appendLine ("adapter1_bluez5" ++ ".cpp") "",
        .appendLine ("adapter1_bluez5" ++ ".cpp")
          ("#include \"moc_" ++ "adapter1_bluez5" ++ "_p.cpp\"") ] :=
  generateScript_spec.2.1 ("adapter1_bluez5", "org.bluez.Adapter1.xml", [])
    (List.mem_cons_self _ _)

end BluezCodegen
